import Mathlib

/-!
Verification of the core of the Flight SQL ADBC server
(`DummyFlightSQLServer`): the statement handle registry with its two-phase
describe/execute protocol, the schema probe rewrite, the hierarchical
metadata flattener, and the resource/trace behaviour of the streaming
result producer.

The Go handlers are shallowly embedded as pure functions over an explicit
server state.  The ADBC backend (an external collaborator: SQLite/DuckDB
behind the driver manager) is a parameter `Backend` exposing the calls the
server makes: `Open` (modelled by the flag `openOk`), `ExecuteQuery`
(modelled by `exec`, returning either an error message or the reader's
schema together with the number of record batches the reader will yield),
and `GetObjects` at the three depths (modelled by the three batch lists).
`NewStatement` and `SetSqlQuery` merely allocate and store the SQL text in
the drivers used here and are modelled as always succeeding.

Interactions with the backend are recorded as an `Event` trace so that
statements about which SQL text is executed, how many rows the probe
reads, and when statements/connections/readers are closed or released can
be made precise.  Go `defer`s run in LIFO order when the surrounding
function returns; the traces reproduce that ordering.  The goroutine that
feeds the unbuffered result channel in `DoGetStatement` is sequenced after
the function's return in the trace: every send on the unbuffered channel
rendezvouses with a consumer receive, which can only happen after the
handler has returned the channel, while the handler's defers run at its
return.
-/

namespace FlightSqlAdbc

/-- A result-set schema: the ordered list of columns, each a (name, type) pair. -/
abbrev Schema := List (String × String)

/-- Errors the server handlers return to the transport layer. -/
inductive ServerError where
  /-- The literal error "database is not initialized". -/
  | dbNotInitialized : ServerError
  /-- An error from `db.Open`. -/
  | openFailed : ServerError
  /-- An error surfaced from `stmt.ExecuteQuery` (bad SQL, missing relation, ...). -/
  | queryError (msg : String) : ServerError
  /-- The literal error "unknown statement handle: %s". -/
  | unknownHandle (h : String) : ServerError
deriving DecidableEq, Repr

/-- Outcome of a handler call: a value, a returned error, or a crash
(a nil-pointer dereference that panics instead of returning). -/
inductive Outcome (α : Type) where
  | ok (a : α)
  | err (e : ServerError)
  | crash
deriving DecidableEq, Repr

/-- One introspection record batch at DB-schema depth, as laid out by Arrow:
a catalog-name column and a list column of per-catalog schemas, the list
column being offsets into a flat child array of schema names
(children of parent row `i` occupy `offsets[i] .. offsets[i+1])`). -/
structure SchemasBatch where
  numRows : Nat
  catalogNames : List String
  schemaOffsets : List Nat
  schemaNames : List String
deriving DecidableEq, Repr

/-- One introspection record batch at table depth: as `SchemasBatch`, with a
second nesting level mapping each schema row `j` to the tables in
`tableOffsets[j] .. tableOffsets[j+1])` of the flat table arrays. -/
structure TablesBatch where
  numRows : Nat
  catalogNames : List String
  schemaOffsets : List Nat
  schemaNames : List String
  tableOffsets : List Nat
  tableNames : List String
  tableTypes : List String
deriving DecidableEq, Repr

/-- The ADBC backend as seen by the server (external collaborator). -/
structure Backend where
  /-- Whether `db.Open` succeeds. -/
  openOk : Bool
  /-- `stmt.ExecuteQuery` for a given SQL text: an error message, or the
  reader's schema together with the number of batches the reader yields. -/
  exec : String → Except String (Schema × Nat)
  /-- `conn.GetObjects` at catalog depth: each record's catalog-name column. -/
  catalogBatches : List (List String)
  /-- `conn.GetObjects` at DB-schema depth. -/
  schemaBatches : List SchemasBatch
  /-- `conn.GetObjects` at table depth. -/
  tableBatches : List TablesBatch

/-- The server state: the optional database (`s.db`, a possibly-nil pointer)
and the statement-handle registry (`s.queries`, the `map[string]string`
from handles to query text). -/
structure ServerState where
  db : Option Backend
  queries : String → Option String

/-- Go map insertion `m[k] = v`. -/
def mapStore (m : String → Option String) (k v : String) : String → Option String :=
  fun x => if x = k then some v else m x

/-- One observable interaction with the backend. -/
inductive Event where
  | openConn
  | closeConn
  | newStmt
  | closeStmt
  | setSql (q : String)
  | execQuery (q : String)
  /-- A successful `reader.Next()`: one record batch is read from the reader. -/
  | readerNext
  | releaseReader
deriving DecidableEq, Repr

/-- Number of occurrences of an event in a trace. -/
def countEvent (t : List Event) (e : Event) : Nat :=
  (t.filter fun x => x = e).length

/-- The SQL texts submitted to the backend via `ExecuteQuery`, in order. -/
def executedQueries (t : List Event) : List String :=
  t.filterMap fun e =>
    match e with
    | Event.execQuery q => some q
    | _ => none

/-- The schema-probe rewrite
`fmt.Sprintf("SELECT * FROM (%s) WHERE 1=0", query)`. -/
def wrapQuery (q : String) : String :=
  "SELECT * FROM (" ++ q ++ ") WHERE 1=0"

/-- The schema the backend reports for a query, when execution succeeds. -/
def execSchema (be : Backend) (q : String) : Option Schema :=
  match be.exec q with
  | .ok (schema, _) => some schema
  | .error _ => none

/-- Embeds `GetFlightInfoStatement`.  `handle` stands for the fresh
crypto/rand, hex-encoded token generated at the top of the handler.  The
Go code checks `s.db == nil`, generates the handle, stores
`s.queries[handle] = cmd.GetQuery()`, and only then opens a connection and
runs the probe; on the success path the defers fire in LIFO order
(`reader.Release`, `stmt.Close`, `conn.Close`). -/
def getFlightInfoStatement (s : ServerState) (handle query : String) :
    Outcome (String × Schema) × ServerState × List Event :=
  match s.db with
  | none => (.err .dbNotInitialized, s, [])
  | some be =>
    let s' : ServerState := { s with queries := mapStore s.queries handle query }
    if be.openOk then
      let schemaQuery := wrapQuery query
      match be.exec schemaQuery with
      | .error msg =>
          (.err (.queryError msg), s',
            [.openConn, .newStmt, .setSql schemaQuery, .execQuery schemaQuery,
             .closeStmt, .closeConn])
      | .ok (schema, _) =>
          (.ok (handle, schema), s',
            [.openConn, .newStmt, .setSql schemaQuery, .execQuery schemaQuery,
             .releaseReader, .closeStmt, .closeConn])
    else (.err .openFailed, s', [])

/-- Embeds `GetSchemaStatement`: the same probe as `getFlightInfoStatement`
but with no handle generation and no registry write. -/
def getSchemaStatement (s : ServerState) (query : String) :
    Outcome Schema × ServerState × List Event :=
  match s.db with
  | none => (.err .dbNotInitialized, s, [])
  | some be =>
    if be.openOk then
      let schemaQuery := wrapQuery query
      match be.exec schemaQuery with
      | .error msg =>
          (.err (.queryError msg), s,
            [.openConn, .newStmt, .setSql schemaQuery, .execQuery schemaQuery,
             .closeStmt, .closeConn])
      | .ok (schema, _) =>
          (.ok schema, s,
            [.openConn, .newStmt, .setSql schemaQuery, .execQuery schemaQuery,
             .releaseReader, .closeStmt, .closeConn])
    else (.err .openFailed, s, [])

/-- Embeds the call part of `DoGetStatement`: the registry lookup comes
first, then the nil-database check, Open, NewStatement, SetSqlQuery on the
stored (unmodified) text, and ExecuteQuery.  On the success path the
handler returns the channel; its defers (`stmt.Close`, `conn.Close`) run
at that return, so they close the trace.  `reader.Release` belongs to the
producer goroutine, see `doGetStatementStream`. -/
def doGetStatement (s : ServerState) (handle : String) :
    Outcome (Schema × Nat) × ServerState × List Event :=
  match s.queries handle with
  | none => (.err (.unknownHandle handle), s, [])
  | some query =>
    match s.db with
    | none => (.err .dbNotInitialized, s, [])
    | some be =>
      if be.openOk then
        match be.exec query with
        | .error msg =>
            (.err (.queryError msg), s,
              [.openConn, .newStmt, .setSql query, .execQuery query,
               .closeStmt, .closeConn])
        | .ok (schema, nBatches) =>
            (.ok (schema, nBatches), s,
              [.openConn, .newStmt, .setSql query, .execQuery query,
               .closeStmt, .closeConn])
      else (.err .openFailed, s, [])

/-- Events of the producer goroutine of `DoGetStatement`, for a reader
yielding `nBatches` batches and a consumer that accepts `consumed` sends
on the unbuffered channel.  If the consumer drains the stream the loop
runs to exhaustion and the deferred `reader.Release` fires; if the
consumer stops early the goroutine fetches one more batch, blocks forever
on the channel send, and `reader.Release` never runs. -/
def doGetStatementStream (nBatches consumed : Nat) : List Event :=
  if nBatches ≤ consumed then
    List.replicate nBatches Event.readerNext ++ [Event.releaseReader]
  else
    List.replicate (consumed + 1) Event.readerNext

/-- The whole backend trace of one execute request: the handler call
followed (on success) by the producer goroutine's events. -/
def doGetStatementInteraction (s : ServerState) (handle : String) (consumed : Nat) :
    List Event :=
  match doGetStatement s handle with
  | (Outcome.ok (_, nBatches), _, callEvents) =>
      callEvents ++ doGetStatementStream nBatches consumed
  | (_, _, callEvents) => callEvents

/-- The Go loop `for j := start; j < end; j++` over the child range of
parent row `i` in an offsets array: the indices `offsets[i] .. offsets[i+1])`. -/
def rangeFromOffsets (offsets : List Nat) (i : Nat) : List Nat :=
  List.range' (offsets.getD i 0) (offsets.getD (i + 1) 0 - offsets.getD i 0)

/-- The flat (catalogName, schemaName) rows `DoGetDBSchemas` appends for one
introspection record: for each catalog row `i`, for each schema index `j`
in its child range, the catalog name replicated next to the schema name. -/
def flattenSchemasRows (rec : SchemasBatch) : List (String × String) :=
  (List.range rec.numRows).flatMap fun i =>
    (rangeFromOffsets rec.schemaOffsets i).map fun j =>
      (rec.catalogNames.getD i "", rec.schemaNames.getD j "")

/-- A columnar record batch as the server builds it: the finalized column
arrays and the row count passed to `array.NewRecordBatch`. -/
structure MetaBatch where
  cols : List (List String)
  numRows : Nat
deriving DecidableEq, Repr

/-- The batch `DoGetDBSchemas` emits for one introspection record: the two
builder columns and the row count `int64(cols[0].Len())`. -/
def flattenSchemasBatch (rec : SchemasBatch) : MetaBatch :=
  let rows := flattenSchemasRows rec
  { cols := [rows.map Prod.fst, rows.map Prod.snd]
    numRows := (rows.map Prod.fst).length }

/-- One flat table-depth row: catalog and schema ancestor keys replicated
next to the table's own name and type. -/
structure FlatTableRow where
  catalogName : String
  schemaName : String
  tableName : String
  tableType : String
deriving DecidableEq, Repr

/-- The flat rows `DoGetTables` appends for one introspection record: the
three nested loops over catalog rows, their schema child ranges, and the
schemas' table child ranges. -/
def flattenTablesRows (rec : TablesBatch) : List FlatTableRow :=
  (List.range rec.numRows).flatMap fun i =>
    (rangeFromOffsets rec.schemaOffsets i).flatMap fun j =>
      (rangeFromOffsets rec.tableOffsets j).map fun k =>
        { catalogName := rec.catalogNames.getD i ""
          schemaName := rec.schemaNames.getD j ""
          tableName := rec.tableNames.getD k ""
          tableType := rec.tableTypes.getD k "" }

/-- The batch `DoGetTables` emits for one introspection record: the four
builder columns and the row count `int64(cols[0].Len())`. -/
def flattenTablesBatch (rec : TablesBatch) : MetaBatch :=
  let rows := flattenTablesRows rec
  { cols := [rows.map FlatTableRow.catalogName, rows.map FlatTableRow.schemaName,
             rows.map FlatTableRow.tableName, rows.map FlatTableRow.tableType]
    numRows := (rows.map FlatTableRow.catalogName).length }

/-- The batch `DoGetCatalogs` emits for one introspection record:
`array.NewRecord(schema, []arrow.Array{rec.Column(0)}, 0)` keeps the
catalog-name column but passes the literal row count `0`. -/
def doGetCatalogsBatch (catalogCol : List String) : MetaBatch :=
  { cols := [catalogCol], numRows := 0 }

/-- Embeds `DoGetCatalogs`: nil-database check, Open, GetObjects at catalog
depth, one emitted batch per introspection record. -/
def doGetCatalogs (s : ServerState) : Outcome (List MetaBatch) × ServerState :=
  match s.db with
  | none => (.err .dbNotInitialized, s)
  | some be =>
    if be.openOk then (.ok (be.catalogBatches.map doGetCatalogsBatch), s)
    else (.err .openFailed, s)

/-- Embeds `DoGetDBSchemas`: there is no nil check here — the handler starts
with `db := *s.db`, which dereferences the nil pointer when no database is
configured. -/
def doGetDBSchemas (s : ServerState) : Outcome (List MetaBatch) × ServerState :=
  match s.db with
  | none => (.crash, s)
  | some be =>
    if be.openOk then (.ok (be.schemaBatches.map flattenSchemasBatch), s)
    else (.err .openFailed, s)

/-- Embeds `DoGetTables`: like `DoGetDBSchemas`, it starts with
`db := *s.db` and has no nil check. -/
def doGetTables (s : ServerState) : Outcome (List MetaBatch) × ServerState :=
  match s.db with
  | none => (.crash, s)
  | some be =>
    if be.openOk then (.ok (be.tableBatches.map flattenTablesBatch), s)
    else (.err .openFailed, s)

/-- Number of tables owned by schema row `j`: the length of its child range
`tableOffsets[j] .. tableOffsets[j+1])`. -/
def tableCountOfSchema (rec : TablesBatch) (j : Nat) : Nat :=
  rec.tableOffsets.getD (j + 1) 0 - rec.tableOffsets.getD j 0

/-- A sample two-column result schema. -/
def sampleSchema : Schema := [("id", "INT64"), ("name", "STRING")]

/-- A backend on which every query succeeds with `sampleSchema` and two
result batches. -/
def okBackend : Backend :=
  { openOk := true
    exec := fun _ => .ok (sampleSchema, 2)
    catalogBatches := [["main"]]
    schemaBatches := []
    tableBatches := [] }

/-- A backend on which every query fails, as the SQLite driver does for
`SELECT * FROM missing_table`. -/
def failingBackend : Backend :=
  { openOk := true
    exec := fun _ => .error "no such table: missing_table"
    catalogBatches := []
    schemaBatches := []
    tableBatches := [] }

/-- The empty statement-handle registry. -/
def emptyQueries : String → Option String := fun _ => none

/-- A healthy server with an empty registry. -/
def okState : ServerState := { db := some okBackend, queries := emptyQueries }

/-- A healthy server whose registry maps the handle "h0" to "SELECT 1". -/
def regState : ServerState :=
  { db := some okBackend, queries := mapStore emptyQueries "h0" "SELECT 1" }

/-- A server whose probe fails, with an empty registry. -/
def failState : ServerState := { db := some failingBackend, queries := emptyQueries }

/-- A server with no database configured but a registered handle. -/
def nilDbState : ServerState :=
  { db := none, queries := mapStore emptyQueries "h0" "SELECT 1" }

theorem countEvent_append (t₁ t₂ : List Event) (e : Event) :
    countEvent (t₁ ++ t₂) e = countEvent t₁ e + countEvent t₂ e := by
  simp [countEvent, List.filter_append]

theorem countEvent_replicate (n : Nat) (a e : Event) :
    countEvent (List.replicate n a) e = if a = e then n else 0 := by
  induction n with
  | zero => simp [countEvent]
  | succ n ih =>
    rw [List.replicate_succ]
    simp only [countEvent, List.filter_cons] at ih ⊢
    by_cases h : a = e
    · simp [h] at ih ⊢
    · simp [h] at ih ⊢

theorem wrapQuery_ne (T : String) : wrapQuery T ≠ T := by
  intro h
  have hlen := congrArg String.length h
  have h1 : ("SELECT * FROM (" : String).length = 15 := rfl
  have h2 : (") WHERE 1=0" : String).length = 11 := rfl
  rw [wrapQuery, String.length_append, String.length_append, h1, h2] at hlen
  omega

/-- Claim C1: describing query text T stores T itself under the generated
handle, the returned locator carries that same handle, and executing the
handle submits to the backend text byte-identical to T — never the probe's
rewritten `WHERE 1=0` variant. -/
theorem handle_round_trip (s : ServerState) (be : Backend) (handle T : String)
    (hdb : s.db = some be) (hopen : be.openOk = true) :
    (∀ schW m, be.exec (wrapQuery T) = .ok (schW, m) →
      (getFlightInfoStatement s handle T).1 = Outcome.ok (handle, schW)) ∧
    (getFlightInfoStatement s handle T).2.1.queries handle = some T ∧
    executedQueries (doGetStatement (getFlightInfoStatement s handle T).2.1 handle).2.2 = [T] ∧
    wrapQuery T ∉
      executedQueries (doGetStatement (getFlightInfoStatement s handle T).2.1 handle).2.2 := by
  have hstate : (getFlightInfoStatement s handle T).2.1 =
      { s with queries := mapStore s.queries handle T } := by
    simp only [getFlightInfoStatement, hdb, hopen, if_true]
    cases hw : be.exec (wrapQuery T) with
    | error msg => rfl
    | ok p => rfl
  refine ⟨?_, ?_, ?_⟩
  · intro schW m hw
    simp [getFlightInfoStatement, hdb, hopen, hw]
  · rw [hstate]
    simp [mapStore]
  · rw [hstate]
    have hlook : mapStore s.queries handle T handle = some T := by simp [mapStore]
    have htr : ∀ tr, tr = (doGetStatement { s with queries := mapStore s.queries handle T } handle).2.2 →
        executedQueries tr = [T] := by
      intro tr htr
      subst htr
      simp only [doGetStatement, hlook, hdb, hopen, if_true]
      cases he : be.exec T with
      | error msg => simp [executedQueries]
      | ok p => simp [executedQueries]
    have hres := htr _ rfl
    refine ⟨hres, ?_⟩
    rw [hres]
    simp [wrapQuery_ne T]

theorem handle_round_trip_witness :
    okState.db = some okBackend ∧ okBackend.openOk = true ∧
    ((∀ schW m, okBackend.exec (wrapQuery "SELECT 1") = .ok (schW, m) →
        (getFlightInfoStatement okState "h0" "SELECT 1").1 = Outcome.ok ("h0", schW)) ∧
      (getFlightInfoStatement okState "h0" "SELECT 1").2.1.queries "h0" = some "SELECT 1" ∧
      executedQueries
        (doGetStatement (getFlightInfoStatement okState "h0" "SELECT 1").2.1 "h0").2.2 =
        ["SELECT 1"] ∧
      wrapQuery "SELECT 1" ∉
        executedQueries
          (doGetStatement (getFlightInfoStatement okState "h0" "SELECT 1").2.1 "h0").2.2) :=
  ⟨rfl, rfl, handle_round_trip okState okBackend "h0" "SELECT 1" rfl rfl⟩

/-- Claim C5: for every query text, both probe entry points submit to the
backend exactly the rewritten string `SELECT * FROM (Q) WHERE 1=0` with Q
substituted verbatim, and read zero rows from the resulting reader. -/
theorem schema_probe_rewrite (s : ServerState) (be : Backend) (handle q : String)
    (hdb : s.db = some be) (hopen : be.openOk = true) :
    wrapQuery q = "SELECT * FROM (" ++ q ++ ") WHERE 1=0" ∧
    executedQueries (getFlightInfoStatement s handle q).2.2 = [wrapQuery q] ∧
    countEvent (getFlightInfoStatement s handle q).2.2 Event.readerNext = 0 ∧
    executedQueries (getSchemaStatement s q).2.2 = [wrapQuery q] ∧
    countEvent (getSchemaStatement s q).2.2 Event.readerNext = 0 := by
  refine ⟨rfl, ?_, ?_, ?_, ?_⟩ <;>
    simp only [getFlightInfoStatement, getSchemaStatement, hdb, hopen, if_true] <;>
    cases hw : be.exec (wrapQuery q) <;>
    simp [executedQueries, countEvent]

theorem schema_probe_rewrite_witness :
    okState.db = some okBackend ∧ okBackend.openOk = true ∧
    (wrapQuery "SELECT 1" = "SELECT * FROM (" ++ "SELECT 1" ++ ") WHERE 1=0" ∧
      executedQueries (getFlightInfoStatement okState "h0" "SELECT 1").2.2 =
        [wrapQuery "SELECT 1"] ∧
      countEvent (getFlightInfoStatement okState "h0" "SELECT 1").2.2 Event.readerNext = 0 ∧
      executedQueries (getSchemaStatement okState "SELECT 1").2.2 = [wrapQuery "SELECT 1"] ∧
      countEvent (getSchemaStatement okState "SELECT 1").2.2 Event.readerNext = 0) :=
  ⟨rfl, rfl, schema_probe_rewrite okState okBackend "h0" "SELECT 1" rfl rfl⟩

/-- Claim C6: executing a handle absent from the registry fails with the
distinct unknown-handle error before any backend interaction: no
connection is opened and no query is executed. -/
theorem unknown_handle_rejected (s : ServerState) (handle : String)
    (habs : s.queries handle = none) :
    (doGetStatement s handle).1 = Outcome.err (ServerError.unknownHandle handle) ∧
    (doGetStatement s handle).2.2 = [] ∧
    countEvent (doGetStatement s handle).2.2 Event.openConn = 0 ∧
    executedQueries (doGetStatement s handle).2.2 = [] ∧
    (∀ msg, ServerError.unknownHandle handle ≠ ServerError.queryError msg) ∧
    ServerError.unknownHandle handle ≠ ServerError.dbNotInitialized := by
  simp [doGetStatement, habs, countEvent, executedQueries]

theorem unknown_handle_rejected_witness :
    okState.queries "nope" = none ∧
    ((doGetStatement okState "nope").1 = Outcome.err (ServerError.unknownHandle "nope") ∧
      (doGetStatement okState "nope").2.2 = [] ∧
      countEvent (doGetStatement okState "nope").2.2 Event.openConn = 0 ∧
      executedQueries (doGetStatement okState "nope").2.2 = [] ∧
      (∀ msg, ServerError.unknownHandle "nope" ≠ ServerError.queryError msg) ∧
      ServerError.unknownHandle "nope" ≠ ServerError.dbNotInitialized) :=
  ⟨rfl, unknown_handle_rejected okState "nope" rfl⟩

/-- Claim C3 counterexample: describing `SELECT * FROM missing_table` on a
backend that rejects it returns a QueryError, yet the statement-handle
registry is not left unchanged — the handle was inserted before the probe
ran, so the failed description does register a handle. -/
theorem describe_failure_registers_handle_cex :
    (getFlightInfoStatement failState "h0" "SELECT * FROM missing_table").1 =
      Outcome.err (ServerError.queryError "no such table: missing_table") ∧
    failState.queries "h0" = none ∧
    (getFlightInfoStatement failState "h0" "SELECT * FROM missing_table").2.1.queries "h0" =
      some "SELECT * FROM missing_table" := by
  refine ⟨rfl, rfl, ?_⟩
  simp [getFlightInfoStatement, failState, failingBackend, mapStore, emptyQueries]

/-- Claim C3 amended: when the schema probe fails, the describe operation
returns a QueryError and no locator reaches the client, but the registry
does gain an entry: the handle-to-query insertion happens before the probe
runs. -/
theorem describe_probe_failure (s : ServerState) (be : Backend) (handle q msg : String)
    (hdb : s.db = some be) (hopen : be.openOk = true)
    (hfail : be.exec (wrapQuery q) = .error msg) :
    (getFlightInfoStatement s handle q).1 = Outcome.err (ServerError.queryError msg) ∧
    (getFlightInfoStatement s handle q).2.1.queries handle = some q := by
  simp [getFlightInfoStatement, hdb, hopen, hfail, mapStore]

theorem describe_probe_failure_witness :
    failState.db = some failingBackend ∧ failingBackend.openOk = true ∧
    failingBackend.exec (wrapQuery "SELECT * FROM missing_table") =
      .error "no such table: missing_table" ∧
    ((getFlightInfoStatement failState "h1" "SELECT * FROM missing_table").1 =
        Outcome.err (ServerError.queryError "no such table: missing_table") ∧
      (getFlightInfoStatement failState "h1" "SELECT * FROM missing_table").2.1.queries "h1" =
        some "SELECT * FROM missing_table") :=
  ⟨rfl, rfl, rfl,
    describe_probe_failure failState failingBackend "h1" "SELECT * FROM missing_table"
      "no such table: missing_table" rfl rfl rfl⟩

/-- Claim C4: when the backend reports the same schema for the rewritten
probe text as for the original text (the spec's premise that the subquery
wrap does not alter projection shape), a successful probe returns exactly
the schema that executing the described handle reports — column for
column, names and types, in order. -/
theorem schema_probe_equivalence (s : ServerState) (be : Backend) (handle q : String)
    (schW : Schema) (m : Nat) (schE : Schema) (n : Nat)
    (hdb : s.db = some be) (hopen : be.openOk = true)
    (hagree : execSchema be (wrapQuery q) = execSchema be q)
    (hprobe : be.exec (wrapQuery q) = .ok (schW, m))
    (hexec : be.exec q = .ok (schE, n)) :
    (getFlightInfoStatement s handle q).1 = Outcome.ok (handle, schW) ∧
    (doGetStatement (getFlightInfoStatement s handle q).2.1 handle).1 =
      Outcome.ok (schE, n) ∧
    schW = schE := by
  have hstate : (getFlightInfoStatement s handle q).2.1 =
      { s with queries := mapStore s.queries handle q } := by
    simp [getFlightInfoStatement, hdb, hopen, hprobe]
  refine ⟨?_, ?_, ?_⟩
  · simp [getFlightInfoStatement, hdb, hopen, hprobe]
  · rw [hstate]
    have hlook : mapStore s.queries handle q handle = some q := by simp [mapStore]
    simp [doGetStatement, hlook, hdb, hopen, hexec]
  · rw [execSchema, execSchema, hprobe, hexec] at hagree
    exact Option.some_injective _ hagree

/-- A sample table-depth introspection record: one catalog "main" owning the
schemas "s0" (one table) and "s1" (two tables). -/
def sampleTablesBatch : TablesBatch :=
  { numRows := 1
    catalogNames := ["main"]
    schemaOffsets := [0, 2]
    schemaNames := ["s0", "s1"]
    tableOffsets := [0, 1, 3]
    tableNames := ["t0", "t1", "t2"]
    tableTypes := ["TABLE", "TABLE", "VIEW"] }

/-- Claim C2: for every introspection record, table-depth flattening emits
exactly the sum over catalogs i and their schemas j of the table count of
schema j, and every emitted flat row carries the catalog name and schema
name (and table name and type) of the structural ancestors it was
generated from. -/
theorem tables_flattening (rec : TablesBatch) :
    (flattenTablesRows rec).length =
      ((List.range rec.numRows).map fun i =>
        ((rangeFromOffsets rec.schemaOffsets i).map fun j =>
          tableCountOfSchema rec j).sum).sum ∧
    ∀ r ∈ flattenTablesRows rec,
      ∃ i ∈ List.range rec.numRows, ∃ j ∈ rangeFromOffsets rec.schemaOffsets i,
        ∃ k ∈ rangeFromOffsets rec.tableOffsets j,
          r.catalogName = rec.catalogNames.getD i "" ∧
          r.schemaName = rec.schemaNames.getD j "" ∧
          r.tableName = rec.tableNames.getD k "" ∧
          r.tableType = rec.tableTypes.getD k "" := by
  constructor
  · simp [flattenTablesRows, List.length_flatMap, tableCountOfSchema, rangeFromOffsets,
      Function.comp_def]
  · intro r hr
    simp only [flattenTablesRows, List.mem_flatMap, List.mem_map] at hr
    obtain ⟨i, hi, j, hj, k, hk, rfl⟩ := hr
    exact ⟨i, hi, j, hj, k, hk, rfl, rfl, rfl, rfl⟩

theorem tables_flattening_witness :
    (⟨"main", "s1", "t2", "VIEW"⟩ : FlatTableRow) ∈ flattenTablesRows sampleTablesBatch ∧
    (flattenTablesRows sampleTablesBatch).length = 3 ∧
    (∃ i ∈ List.range sampleTablesBatch.numRows,
      ∃ j ∈ rangeFromOffsets sampleTablesBatch.schemaOffsets i,
        ∃ k ∈ rangeFromOffsets sampleTablesBatch.tableOffsets j,
          (⟨"main", "s1", "t2", "VIEW"⟩ : FlatTableRow).catalogName =
            sampleTablesBatch.catalogNames.getD i "" ∧
          (⟨"main", "s1", "t2", "VIEW"⟩ : FlatTableRow).schemaName =
            sampleTablesBatch.schemaNames.getD j "" ∧
          (⟨"main", "s1", "t2", "VIEW"⟩ : FlatTableRow).tableName =
            sampleTablesBatch.tableNames.getD k "" ∧
          (⟨"main", "s1", "t2", "VIEW"⟩ : FlatTableRow).tableType =
            sampleTablesBatch.tableTypes.getD k "") :=
  ⟨by decide, by decide,
    (tables_flattening sampleTablesBatch).2 ⟨"main", "s1", "t2", "VIEW"⟩ (by decide)⟩

/-- Claim C7 counterexample: a `DoGetCatalogs` batch built from an
introspection record with one catalog entry has a single column holding one
value but declares a row count of 0, not the common column length. -/
theorem catalogs_rowcount_cex :
    ((doGetCatalogsBatch ["main"]).cols.getD 0 []).length = 1 ∧
    (doGetCatalogsBatch ["main"]).numRows = 0 ∧
    (doGetCatalogsBatch ["main"]).numRows ≠
      ((doGetCatalogsBatch ["main"]).cols.getD 0 []).length := by
  refine ⟨rfl, rfl, ?_⟩
  decide

/-- Claim C7 amended: every metadata batch has equal-length columns;
`DoGetDBSchemas` and `DoGetTables` batches declare a row count equal to the
common column length, but `DoGetCatalogs` batches declare a row count of 0
regardless of how many catalog entries the column holds. -/
theorem batch_row_counts :
    (∀ rec : SchemasBatch, ∀ c ∈ (flattenSchemasBatch rec).cols,
        c.length = (flattenSchemasBatch rec).numRows) ∧
    (∀ rec : TablesBatch, ∀ c ∈ (flattenTablesBatch rec).cols,
        c.length = (flattenTablesBatch rec).numRows) ∧
    (∀ col : List String,
      (∀ c ∈ (doGetCatalogsBatch col).cols, c.length = col.length) ∧
        (doGetCatalogsBatch col).numRows = 0) := by
  refine ⟨?_, ?_, ?_⟩
  · intro rec c hc
    simp only [flattenSchemasBatch, List.mem_cons, List.not_mem_nil, or_false] at hc
    rcases hc with rfl | rfl <;> simp [flattenSchemasBatch]
  · intro rec c hc
    simp only [flattenTablesBatch, List.mem_cons, List.not_mem_nil, or_false] at hc
    rcases hc with rfl | rfl | rfl | rfl <;> simp [flattenTablesBatch]
  · intro col
    constructor
    · intro c hc
      simp only [doGetCatalogsBatch, List.mem_cons, List.not_mem_nil, or_false] at hc
      subst hc
      rfl
    · rfl

theorem batch_row_counts_witness :
    ([("main", "s0")].map Prod.fst) ∈
      (flattenSchemasBatch ⟨1, ["main"], [0, 1], ["s0"]⟩).cols ∧
    (([("main", "s0")].map Prod.fst).length =
      (flattenSchemasBatch ⟨1, ["main"], [0, 1], ["s0"]⟩).numRows) ∧
    ["main"] ∈ (doGetCatalogsBatch ["main"]).cols ∧
    (["main"] : List String).length = (["main"] : List String).length ∧
    (doGetCatalogsBatch ["main"]).numRows = 0 :=
  ⟨by decide,
    batch_row_counts.1 ⟨1, ["main"], [0, 1], ["s0"]⟩ ([("main", "s0")].map Prod.fst)
      (by decide),
    by decide,
    (batch_row_counts.2.2 ["main"]).1 ["main"] (by decide),
    (batch_row_counts.2.2 ["main"]).2⟩

/-- Claim C8 counterexample: with no database configured, `DoGetDBSchemas`
and `DoGetTables` dereference the nil database pointer (crash) instead of
reporting the backend-unavailable error. -/
theorem nil_db_crash_cex :
    (doGetDBSchemas nilDbState).1 = Outcome.crash ∧
    (doGetDBSchemas nilDbState).1 ≠ Outcome.err ServerError.dbNotInitialized ∧
    (doGetTables nilDbState).1 = Outcome.crash := by
  refine ⟨rfl, ?_, rfl⟩
  intro h
  simp [doGetDBSchemas, nilDbState] at h

/-- Claim C8 amended: with no database configured, `DoGetCatalogs`,
`GetFlightInfoStatement`, `GetSchemaStatement` and `DoGetStatement` (for a
registered handle) report the backend-unavailable error immediately, but
`DoGetDBSchemas` and `DoGetTables` have no nil check and crash on the
dereference. -/
theorem nil_db_handling (s : ServerState) (handle q : String) (hnil : s.db = none) :
    (doGetCatalogs s).1 = Outcome.err ServerError.dbNotInitialized ∧
    (getFlightInfoStatement s handle q).1 = Outcome.err ServerError.dbNotInitialized ∧
    (getSchemaStatement s q).1 = Outcome.err ServerError.dbNotInitialized ∧
    (∀ T, s.queries handle = some T →
      (doGetStatement s handle).1 = Outcome.err ServerError.dbNotInitialized) ∧
    (doGetDBSchemas s).1 = Outcome.crash ∧
    (doGetTables s).1 = Outcome.crash := by
  refine ⟨?_, ?_, ?_, ?_, ?_, ?_⟩
  · simp [doGetCatalogs, hnil]
  · simp [getFlightInfoStatement, hnil]
  · simp [getSchemaStatement, hnil]
  · intro T hT
    simp [doGetStatement, hT, hnil]
  · simp [doGetDBSchemas, hnil]
  · simp [doGetTables, hnil]

theorem nil_db_handling_witness :
    nilDbState.db = none ∧
    nilDbState.queries "h0" = some "SELECT 1" ∧
    ((doGetCatalogs nilDbState).1 = Outcome.err ServerError.dbNotInitialized ∧
      (doGetStatement nilDbState "h0").1 = Outcome.err ServerError.dbNotInitialized ∧
      (doGetDBSchemas nilDbState).1 = Outcome.crash) :=
  ⟨rfl, rfl,
    (nil_db_handling nilDbState "h0" "SELECT 2" rfl).1,
    (nil_db_handling nilDbState "h0" "SELECT 2" rfl).2.2.2.1 "SELECT 1" rfl,
    (nil_db_handling nilDbState "h0" "SELECT 2" rfl).2.2.2.2.1⟩

theorem schema_probe_equivalence_witness :
    okState.db = some okBackend ∧ okBackend.openOk = true ∧
    execSchema okBackend (wrapQuery "SELECT 1") = execSchema okBackend "SELECT 1" ∧
    okBackend.exec (wrapQuery "SELECT 1") = .ok (sampleSchema, 2) ∧
    okBackend.exec "SELECT 1" = .ok (sampleSchema, 2) ∧
    ((getFlightInfoStatement okState "h0" "SELECT 1").1 =
        Outcome.ok ("h0", sampleSchema) ∧
      (doGetStatement (getFlightInfoStatement okState "h0" "SELECT 1").2.1 "h0").1 =
        Outcome.ok (sampleSchema, 2) ∧
      sampleSchema = sampleSchema) :=
  ⟨rfl, rfl, rfl, rfl, rfl,
    schema_probe_equivalence okState okBackend "h0" "SELECT 1" sampleSchema 2 sampleSchema 2
      rfl rfl rfl rfl rfl⟩

/-- Claim C9 counterexample: for a two-batch result whose consumer stops
after one batch, the reader is never released (the producer goroutine
blocks forever on the unbuffered channel send), and the statement and
connection are closed when `DoGetStatement` returns — before any batch of
the stream is produced — not on the stream's terminating path. -/
theorem stream_release_cex :
    countEvent (doGetStatementInteraction regState "h0" 1) Event.releaseReader = 0 ∧
    doGetStatementInteraction regState "h0" 1 =
      [Event.openConn, Event.newStmt, Event.setSql "SELECT 1", Event.execQuery "SELECT 1",
       Event.closeStmt, Event.closeConn, Event.readerNext, Event.readerNext] := by
  refine ⟨?_, ?_⟩ <;> decide

/-- Claim C9 amended: on the execute path the backend statement and
connection are closed exactly once, but when `DoGetStatement` returns —
before any stream event — rather than on the stream's terminating path;
the reader is released exactly once when the consumer reads the stream to
exhaustion, and zero times when the consumer stops early after a proper
prefix of the batches. -/
theorem stream_resource_release (s : ServerState) (be : Backend) (handle q : String)
    (schema : Schema) (nBatches consumed : Nat)
    (hreg : s.queries handle = some q) (hdb : s.db = some be) (hopen : be.openOk = true)
    (hexec : be.exec q = .ok (schema, nBatches)) :
    doGetStatementInteraction s handle consumed =
      [Event.openConn, Event.newStmt, Event.setSql q, Event.execQuery q,
       Event.closeStmt, Event.closeConn] ++ doGetStatementStream nBatches consumed ∧
    countEvent (doGetStatementInteraction s handle consumed) Event.closeStmt = 1 ∧
    countEvent (doGetStatementInteraction s handle consumed) Event.closeConn = 1 ∧
    (nBatches ≤ consumed →
      countEvent (doGetStatementInteraction s handle consumed) Event.releaseReader = 1) ∧
    (consumed < nBatches →
      countEvent (doGetStatementInteraction s handle consumed) Event.releaseReader = 0) := by
  have htr : doGetStatementInteraction s handle consumed =
      [Event.openConn, Event.newStmt, Event.setSql q, Event.execQuery q,
       Event.closeStmt, Event.closeConn] ++ doGetStatementStream nBatches consumed := by
    simp [doGetStatementInteraction, doGetStatement, hreg, hdb, hopen, hexec]
  have hstreamStmt : countEvent (doGetStatementStream nBatches consumed) Event.closeStmt = 0 := by
    rw [doGetStatementStream]
    split
    · rw [countEvent_append, countEvent_replicate]
      simp [countEvent]
    · rw [countEvent_replicate]
      simp
  have hstreamConn : countEvent (doGetStatementStream nBatches consumed) Event.closeConn = 0 := by
    rw [doGetStatementStream]
    split
    · rw [countEvent_append, countEvent_replicate]
      simp [countEvent]
    · rw [countEvent_replicate]
      simp
  refine ⟨htr, ?_, ?_, ?_, ?_⟩ <;> rw [htr, countEvent_append]
  · rw [hstreamStmt]
    simp [countEvent]
  · rw [hstreamConn]
    simp [countEvent]
  · intro hle
    rw [doGetStatementStream, if_pos hle, countEvent_append, countEvent_replicate]
    simp [countEvent]
  · intro hlt
    rw [doGetStatementStream, if_neg (by omega), countEvent_replicate]
    simp [countEvent]

theorem stream_resource_release_witness :
    regState.queries "h0" = some "SELECT 1" ∧ regState.db = some okBackend ∧
    okBackend.openOk = true ∧ okBackend.exec "SELECT 1" = .ok (sampleSchema, 2) ∧
    (doGetStatementInteraction regState "h0" 5 =
        [Event.openConn, Event.newStmt, Event.setSql "SELECT 1",
         Event.execQuery "SELECT 1", Event.closeStmt, Event.closeConn] ++
          doGetStatementStream 2 5 ∧
      countEvent (doGetStatementInteraction regState "h0" 5) Event.closeStmt = 1 ∧
      countEvent (doGetStatementInteraction regState "h0" 5) Event.closeConn = 1 ∧
      (2 ≤ 5 →
        countEvent (doGetStatementInteraction regState "h0" 5) Event.releaseReader = 1) ∧
      (5 < 2 →
        countEvent (doGetStatementInteraction regState "h0" 5) Event.releaseReader = 0)) :=
  ⟨rfl, rfl, rfl, rfl,
    stream_resource_release regState okBackend "h0" "SELECT 1" sampleSchema 2 5
      rfl rfl rfl rfl⟩

theorem getSchemaStatement_state (s : ServerState) (q : String) :
    (getSchemaStatement s q).2.1 = s := by
  cases hdb : s.db with
  | none => simp [getSchemaStatement, hdb]
  | some be =>
    by_cases h : be.openOk
    · simp only [getSchemaStatement, hdb, h, if_true]
      cases be.exec (wrapQuery q) <;> rfl
    · simp [getSchemaStatement, hdb, h]

theorem doGetStatement_state (s : ServerState) (handle : String) :
    (doGetStatement s handle).2.1 = s := by
  cases hq : s.queries handle with
  | none => simp [doGetStatement, hq]
  | some query =>
    cases hdb : s.db with
    | none => simp [doGetStatement, hq, hdb]
    | some be =>
      by_cases h : be.openOk
      · simp only [doGetStatement, hq, hdb, h, if_true]
        cases be.exec query <;> rfl
      · simp [doGetStatement, hq, hdb, h]

theorem getFlightInfoStatement_queries (s : ServerState) (handle q x : String) :
    (getFlightInfoStatement s handle q).2.1.queries x =
      match s.db with
      | none => s.queries x
      | some _ => mapStore s.queries handle q x := by
  cases hdb : s.db with
  | none => simp [getFlightInfoStatement, hdb]
  | some be =>
    by_cases h : be.openOk
    · simp only [getFlightInfoStatement, hdb, h, if_true]
      cases be.exec (wrapQuery q) <;> rfl
    · simp [getFlightInfoStatement, hdb, h]

/-- Claim C10: `GetSchemaStatement` leaves the statement-handle registry
unchanged (as do the execute and metadata handlers);
`GetFlightInfoStatement` is the only operation that writes the registry,
touching no key other than the generated handle; and no operation ever
removes an entry. -/
theorem registry_frame (s : ServerState) (handle q tgt : String) :
    (getSchemaStatement s q).2.1 = s ∧
    (doGetStatement s handle).2.1 = s ∧
    (doGetCatalogs s).2 = s ∧
    (doGetDBSchemas s).2 = s ∧
    (doGetTables s).2 = s ∧
    (tgt ≠ handle →
      (getFlightInfoStatement s handle q).2.1.queries tgt = s.queries tgt) ∧
    (∀ v, s.queries tgt = some v →
      ∃ w, (getFlightInfoStatement s handle q).2.1.queries tgt = some w) := by
  have hcat : (doGetCatalogs s).2 = s := by
    cases hdb : s.db with
    | none => simp [doGetCatalogs, hdb]
    | some be =>
      by_cases h : be.openOk <;> simp [doGetCatalogs, hdb, h]
  have hsch : (doGetDBSchemas s).2 = s := by
    cases hdb : s.db with
    | none => simp [doGetDBSchemas, hdb]
    | some be =>
      by_cases h : be.openOk <;> simp [doGetDBSchemas, hdb, h]
  have htab : (doGetTables s).2 = s := by
    cases hdb : s.db with
    | none => simp [doGetTables, hdb]
    | some be =>
      by_cases h : be.openOk <;> simp [doGetTables, hdb, h]
  refine ⟨getSchemaStatement_state s q, doGetStatement_state s handle, hcat, hsch, htab,
    ?_, ?_⟩
  · intro hne
    rw [getFlightInfoStatement_queries]
    cases s.db with
    | none => rfl
    | some be => simp [mapStore, hne]
  · intro v hv
    rw [getFlightInfoStatement_queries]
    cases s.db with
    | none => exact ⟨v, hv⟩
    | some be =>
      by_cases hx : tgt = handle
      · exact ⟨q, by simp [mapStore, hx]⟩
      · exact ⟨v, by simp [mapStore, hx, hv]⟩

theorem registry_frame_witness :
    ("h0" : String) ≠ "h1" ∧ regState.queries "h0" = some "SELECT 1" ∧
    ((getSchemaStatement regState "SELECT 2").2.1 = regState ∧
      (doGetStatement regState "h1").2.1 = regState ∧
      (doGetCatalogs regState).2 = regState ∧
      (doGetDBSchemas regState).2 = regState ∧
      (doGetTables regState).2 = regState ∧
      (getFlightInfoStatement regState "h1" "SELECT 2").2.1.queries "h0" =
        regState.queries "h0" ∧
      ∃ w, (getFlightInfoStatement regState "h1" "SELECT 2").2.1.queries "h0" = some w) := by
  have h := registry_frame regState "h1" "SELECT 2" "h0"
  exact ⟨by decide, rfl,
    h.1, h.2.1, h.2.2.1, h.2.2.2.1, h.2.2.2.2.1,
    h.2.2.2.2.2.1 (by decide), h.2.2.2.2.2.2 "SELECT 1" rfl⟩

end FlightSqlAdbc
